import Mathlib

/-!
Verification development for the AINative Python SDK.

The SDK's resource layer (`ainative/agent_swarm/__init__.py`) is embedded
directly from the source: each Python method becomes a pure Lean function
from the client state and the method arguments to the updated client state
and the HTTP request it dispatches to the parent client.  JSON values are
modelled by an inductive type, Python dicts by ordered association lists.

The HTTP client / auth / exceptions layer of the repository is present only
through its unit tests; those parts are modelled from the specification
(each such definition carries a doc comment starting `Modelled from the
spec:`).
-/

namespace AINative

/-- JSON values, as produced by marshaling Python arguments into request
bodies.  Python dicts become ordered association lists of string keys. -/
inductive JValue where
  | str (s : String)
  | num (n : Int)
  | bool (b : Bool)
  | arr (xs : List JValue)
  | obj (fields : List (String × JValue))
  | null
deriving Repr

/-- Lookup in a JSON object (Python `dict[key]` / `dict.get(key)`):
the value at the first matching key, if any. -/
def jdictGet (d : List (String × JValue)) (k : String) : Option JValue :=
  (d.find? (fun p => p.1 == k)).map (fun p => p.2)

/-- Python truthiness of an `Optional[List[...]]` argument:
`None` and the empty list are falsy. -/
def pyTruthyList {α : Type} : Option (List α) → Bool
  | none => false
  | some xs => !xs.isEmpty

/-- Python truthiness of an `Optional[str]` argument:
`None` and the empty string are falsy. -/
def pyTruthyStr : Option String → Bool
  | none => false
  | some s => !(s == "")

/-- `x or default` on an `Optional[Dict]` argument: `None` maps to the
empty dict, any dict maps to itself (an empty dict is falsy in Python, but
`\x7b\x7d or \x7b\x7d` is again the empty dict, so `getD` is exact). -/
def pyOrEmptyDict (x : Option (List (String × JValue))) : List (String × JValue) :=
  x.getD []

/-- Types of agents available in the swarm (`AgentType` enum). -/
inductive AgentType where
  | researcher
  | coder
  | reviewer
  | tester
  | documenter
  | analyst
  | designer
  | orchestrator
deriving DecidableEq, Repr

/-- `AgentType.value`: the string value of each enum member. -/
def AgentType.value : AgentType → String
  | .researcher => "researcher"
  | .coder => "coder"
  | .reviewer => "reviewer"
  | .tester => "tester"
  | .documenter => "documenter"
  | .analyst => "analyst"
  | .designer => "designer"
  | .orchestrator => "orchestrator"

/-- Status of agent swarm (`SwarmStatus` enum). -/
inductive SwarmStatus where
  | idle
  | starting
  | running
  | paused
  | stopping
  | completed
  | failed
deriving DecidableEq, Repr

/-- An HTTP request handed to the parent `AINativeClient`: the method, the
endpoint path, the JSON body (`data=` keyword, absent for bare calls) and
the query parameters (`params=` keyword). -/
structure Request where
  method : String
  path : String
  body : Option (List (String × JValue))
  params : Option (List (String × JValue))
deriving Repr

/-- The state of an `AgentSwarmClient`: a reference to the parent client
(abstracted to an identifier, since the methods only forward requests to
it) and the base path set by `__init__`. -/
structure AgentSwarmClient where
  client : Nat
  base_path : String
deriving Repr

/-- `AgentSwarmClient.__init__`: stores the parent client and sets
`base_path` to `"/agent-swarm"`. -/
def AgentSwarmClient.init (client : Nat) : AgentSwarmClient :=
  { client := client, base_path := "/agent-swarm" }

namespace AgentSwarmClient

/-- `start_swarm`: POST `\x7bbase_path\x7d/start` with the full body. -/
def start_swarm (c : AgentSwarmClient) (project_id : String)
    (agents : List JValue) (objective : String)
    (config : Option (List (String × JValue))) :
    AgentSwarmClient × Request :=
  let data := [("project_id", JValue.str project_id),
               ("agents", JValue.arr agents),
               ("objective", JValue.str objective),
               ("config", JValue.obj (pyOrEmptyDict config))]
  (c, { method := "POST", path := c.base_path ++ "/start",
        body := some data, params := none })

/-- `orchestrate`: POST `\x7bbase_path\x7d/orchestrate`; the `agents` key is
added only when the argument is truthy. -/
def orchestrate (c : AgentSwarmClient) (swarm_id : String) (task : String)
    (context : Option (List (String × JValue)))
    (agents : Option (List String)) :
    AgentSwarmClient × Request :=
  let data := [("swarm_id", JValue.str swarm_id),
               ("task", JValue.str task),
               ("context", JValue.obj (pyOrEmptyDict context))]
  let data := if pyTruthyList agents then
      data ++ [("agents", JValue.arr ((agents.getD []).map JValue.str))]
    else data
  (c, { method := "POST", path := c.base_path ++ "/orchestrate",
        body := some data, params := none })

/-- `get_status`: GET `\x7bbase_path\x7d/\x7bswarm_id\x7d/status`. -/
def get_status (c : AgentSwarmClient) (swarm_id : String) :
    AgentSwarmClient × Request :=
  (c, { method := "GET", path := c.base_path ++ "/" ++ swarm_id ++ "/status",
        body := none, params := none })

/-- `get_metrics`: GET `\x7bbase_path\x7d/metrics`; each filter is added to
the query parameters only when truthy. -/
def get_metrics (c : AgentSwarmClient) (swarm_id : Option String)
    (project_id : Option String) : AgentSwarmClient × Request :=
  let params : List (String × JValue) := []
  let params := if pyTruthyStr swarm_id then
      params ++ [("swarm_id", JValue.str (swarm_id.getD ""))] else params
  let params := if pyTruthyStr project_id then
      params ++ [("project_id", JValue.str (project_id.getD ""))] else params
  (c, { method := "GET", path := c.base_path ++ "/metrics",
        body := none, params := some params })

/-- The request dispatched by `get_agent_types`:
GET `\x7bbase_path\x7d/agent-types`. -/
def get_agent_types_req (c : AgentSwarmClient) : AgentSwarmClient × Request :=
  (c, { method := "GET", path := c.base_path ++ "/agent-types",
        body := none, params := none })

/-- The unwrapping step of `get_agent_types`:
`response.get("agent_types", [])`. -/
def get_agent_types_unwrap (response : List (String × JValue)) : JValue :=
  (jdictGet response "agent_types").getD (JValue.arr [])

/-- `configure_agent`: PUT
`\x7bbase_path\x7d/\x7bswarm_id\x7d/agents/\x7bagent_id\x7d/config` with the
config dict as body. -/
def configure_agent (c : AgentSwarmClient) (swarm_id : String)
    (agent_id : String) (config : List (String × JValue)) :
    AgentSwarmClient × Request :=
  (c, { method := "PUT",
        path := c.base_path ++ "/" ++ swarm_id ++ "/agents/" ++ agent_id ++ "/config",
        body := some config, params := none })

/-- `set_agent_prompt`: POST
`\x7bbase_path\x7d/\x7bswarm_id\x7d/agents/\x7bagent_id\x7d/prompt`; the
`system_prompt` key is added only when the argument is truthy. -/
def set_agent_prompt (c : AgentSwarmClient) (swarm_id : String)
    (agent_id : String) (prompt : String) (system_prompt : Option String) :
    AgentSwarmClient × Request :=
  let data := [("prompt", JValue.str prompt)]
  let data := if pyTruthyStr system_prompt then
      data ++ [("system_prompt", JValue.str (system_prompt.getD ""))]
    else data
  (c, { method := "POST",
        path := c.base_path ++ "/" ++ swarm_id ++ "/agents/" ++ agent_id ++ "/prompt",
        body := some data, params := none })

/-- `stop_swarm`: POST `\x7bbase_path\x7d/\x7bswarm_id\x7d/stop` with the
`force` flag in the body. -/
def stop_swarm (c : AgentSwarmClient) (swarm_id : String) (force : Bool) :
    AgentSwarmClient × Request :=
  (c, { method := "POST", path := c.base_path ++ "/" ++ swarm_id ++ "/stop",
        body := some [("force", JValue.bool force)], params := none })

/-- `pause_swarm`: POST `\x7bbase_path\x7d/\x7bswarm_id\x7d/pause`,
with no body. -/
def pause_swarm (c : AgentSwarmClient) (swarm_id : String) :
    AgentSwarmClient × Request :=
  (c, { method := "POST", path := c.base_path ++ "/" ++ swarm_id ++ "/pause",
        body := none, params := none })

/-- `resume_swarm`: POST `\x7bbase_path\x7d/\x7bswarm_id\x7d/resume`,
with no body. -/
def resume_swarm (c : AgentSwarmClient) (swarm_id : String) :
    AgentSwarmClient × Request :=
  (c, { method := "POST", path := c.base_path ++ "/" ++ swarm_id ++ "/resume",
        body := none, params := none })

/-- The request dispatched by `get_swarm_history`:
GET `\x7bbase_path\x7d/\x7bswarm_id\x7d/history` with the `limit`
query parameter. -/
def get_swarm_history_req (c : AgentSwarmClient) (swarm_id : String)
    (limit : Int) : AgentSwarmClient × Request :=
  (c, { method := "GET", path := c.base_path ++ "/" ++ swarm_id ++ "/history",
        body := none, params := some [("limit", JValue.num limit)] })

/-- The unwrapping step of `get_swarm_history`:
`response.get("history", [])`. -/
def get_swarm_history_unwrap (response : List (String × JValue)) : JValue :=
  (jdictGet response "history").getD (JValue.arr [])

/-- The request dispatched by `get_agent_communications`:
GET `\x7bbase_path\x7d/\x7bswarm_id\x7d/communications`; the `agent_id`
query parameter is added only when truthy. -/
def get_agent_communications_req (c : AgentSwarmClient) (swarm_id : String)
    (agent_id : Option String) : AgentSwarmClient × Request :=
  let params : List (String × JValue) := []
  let params := if pyTruthyStr agent_id then
      params ++ [("agent_id", JValue.str (agent_id.getD ""))] else params
  (c, { method := "GET",
        path := c.base_path ++ "/" ++ swarm_id ++ "/communications",
        body := none, params := some params })

/-- The unwrapping step of `get_agent_communications`:
`response.get("communications", [])`. -/
def get_agent_communications_unwrap (response : List (String × JValue)) : JValue :=
  (jdictGet response "communications").getD (JValue.arr [])

/-- `create_agent`: POST `\x7bbase_path\x7d/agents` with the full body;
the `type` field is `agent_type.value`. -/
def create_agent (c : AgentSwarmClient) (name : String)
    (agent_type : AgentType) (capabilities : List String) (prompt : String)
    (config : Option (List (String × JValue))) :
    AgentSwarmClient × Request :=
  let data := [("name", JValue.str name),
               ("type", JValue.str agent_type.value),
               ("capabilities", JValue.arr (capabilities.map JValue.str)),
               ("prompt", JValue.str prompt),
               ("config", JValue.obj (pyOrEmptyDict config))]
  (c, { method := "POST", path := c.base_path ++ "/agents",
        body := some data, params := none })

end AgentSwarmClient

/-! ### Bytes, UTF-8, base64, SHA-256 and HMAC

The auth layer signs requests with `base64(hmac_sha256(secret, message))`.
These primitives are library calls in Python (`hashlib`, `hmac`, `base64`);
they are implemented here concretely over `Nat` byte lists so the model of
the auth layer is executable. -/

/-- Truncation to a 32-bit word. -/
def w32 (n : Nat) : Nat := n % 4294967296

/-- 32-bit right rotation. -/
def rotr (n x : Nat) : Nat := w32 ((x >>> n) ||| (x <<< (32 - n)))

/-- Bitwise complement within 32 bits. -/
def not32 (x : Nat) : Nat := x ^^^ 4294967295

/-- UTF-8 encoding of a single code point. -/
def utf8Bytes (c : Nat) : List Nat :=
  if c < 128 then [c]
  else if c < 2048 then [192 + c / 64, 128 + c % 64]
  else if c < 65536 then [224 + c / 4096, 128 + c / 64 % 64, 128 + c % 64]
  else [240 + c / 262144, 128 + c / 4096 % 64, 128 + c / 64 % 64, 128 + c % 64]

/-- UTF-8 encoding of a string (Python `str.encode()`), as a byte list. -/
def strBytes (s : String) : List Nat :=
  (s.toList.map (fun ch => utf8Bytes ch.toNat)).flatten

/-- The base64 alphabet. -/
def base64Table : List Char :=
  "ABCDEFGHIJKLMNOPQRSTUVWXYZabcdefghijklmnopqrstuvwxyz0123456789+/".toList

/-- The base64 digit for a 6-bit value. -/
def b64char (n : Nat) : Char := base64Table.getD n 'A'

/-- Standard base64 encoding of a byte list (Python `base64.b64encode`). -/
def base64Encode : List Nat → String
  | [] => ""
  | [a] => String.mk [b64char (a / 4), b64char (a % 4 * 16), '=', '=']
  | [a, b] => String.mk [b64char (a / 4), b64char (a % 4 * 16 + b / 16),
      b64char (b % 16 * 4), '=']
  | a :: b :: c :: rest =>
    String.mk [b64char (a / 4), b64char (a % 4 * 16 + b / 16),
      b64char (b % 16 * 4 + c / 64), b64char (c % 64)] ++ base64Encode rest

/-- SHA-256 round constants (FIPS 180-4), written in decimal. -/
def sha256K : List Nat :=
  [1116352408, 1899447441, 3049323471, 3921009573,
   961987163, 1508970993, 2453635748, 2870763221,
   3624381080, 310598401, 607225278, 1426881987,
   1925078388, 2162078206, 2614888103, 3248222580,
   3835390401, 4022224774, 264347078, 604807628,
   770255983, 1249150122, 1555081692, 1996064986,
   2554220882, 2821834349, 2952996808, 3210313671,
   3336571891, 3584528711, 113926993, 338241895,
   666307205, 773529912, 1294757372, 1396182291,
   1695183700, 1986661051, 2177026350, 2456956037,
   2730485921, 2820302411, 3259730800, 3345764771,
   3516065817, 3600352804, 4094571909, 275423344,
   430227734, 506948616, 659060556, 883997877,
   958139571, 1322822218, 1537002063, 1747873779,
   1955562222, 2024104815, 2227730452, 2361852424,
   2428436474, 2756734187, 3204031479, 3329325298]

/-- SHA-256 initial hash state (FIPS 180-4), written in decimal. -/
def sha256H0 : List Nat :=
  [1779033703, 3144134277, 1013904242, 2773480762,
   1359893119, 2600822924, 528734635, 1541459225]

/-- Big-endian packing of bytes into 32-bit words. -/
def toWords : List Nat → List Nat
  | b0 :: b1 :: b2 :: b3 :: rest =>
    (((b0 * 256 + b1) * 256 + b2) * 256 + b3) :: toWords rest
  | _ => []

/-- Big-endian bytes of a 64-bit length field. -/
def lenBytes8 (n : Nat) : List Nat :=
  [n / 72057594037927936 % 256, n / 281474976710656 % 256,
   n / 1099511627776 % 256, n / 4294967296 % 256,
   n / 16777216 % 256, n / 65536 % 256, n / 256 % 256, n % 256]

/-- Big-endian bytes of a 32-bit word. -/
def wordBytes (w : Nat) : List Nat :=
  [w / 16777216 % 256, w / 65536 % 256, w / 256 % 256, w % 256]

/-- SHA-256 message padding: a `0x80` byte, zeros to 56 mod 64, and the
bit length as 8 big-endian bytes. -/
def sha256pad (msg : List Nat) : List Nat :=
  let padZeros := (119 - msg.length % 64) % 64
  msg ++ 128 :: (List.replicate padZeros 0 ++ lenBytes8 (msg.length * 8))

/-- SHA-256 big sigma 0. -/
def bsig0 (x : Nat) : Nat := rotr 2 x ^^^ rotr 13 x ^^^ rotr 22 x

/-- SHA-256 big sigma 1. -/
def bsig1 (x : Nat) : Nat := rotr 6 x ^^^ rotr 11 x ^^^ rotr 25 x

/-- SHA-256 small sigma 0. -/
def ssig0 (x : Nat) : Nat := rotr 7 x ^^^ rotr 18 x ^^^ (x >>> 3)

/-- SHA-256 small sigma 1. -/
def ssig1 (x : Nat) : Nat := rotr 17 x ^^^ rotr 19 x ^^^ (x >>> 10)

/-- SHA-256 choice function. -/
def ch (x y z : Nat) : Nat := (x &&& y) ^^^ (not32 x &&& z)

/-- SHA-256 majority function. -/
def maj (x y z : Nat) : Nat := (x &&& y) ^^^ (x &&& z) ^^^ (y &&& z)

/-- Message-schedule extension: append `fuel` further schedule words. -/
def extendLoop (ws : List Nat) : Nat → List Nat
  | 0 => ws
  | fuel + 1 =>
    let i := ws.length
    let w := w32 (ssig1 (ws.getD (i - 2) 0) + ws.getD (i - 7) 0 +
      ssig0 (ws.getD (i - 15) 0) + ws.getD (i - 16) 0)
    extendLoop (ws ++ [w]) fuel

/-- One SHA-256 compression round on the 8-word working state, consuming a
round constant paired with a schedule word. -/
def compressStep (st : List Nat) (kw : Nat × Nat) : List Nat :=
  let a := st.getD 0 0
  let b := st.getD 1 0
  let c := st.getD 2 0
  let d := st.getD 3 0
  let e := st.getD 4 0
  let f := st.getD 5 0
  let g := st.getD 6 0
  let h := st.getD 7 0
  let t1 := w32 (h + bsig1 e + ch e f g + kw.1 + kw.2)
  let t2 := w32 (bsig0 a + maj a b c)
  [w32 (t1 + t2), a, b, c, w32 (d + t1), e, f, g]

/-- SHA-256 compression of one 64-byte block into the hash state. -/
def compressBlock (hs : List Nat) (block : List Nat) : List Nat :=
  let ws := extendLoop (toWords block) 48
  let final := (sha256K.zip ws).foldl compressStep hs
  (hs.zip final).map (fun p => w32 (p.1 + p.2))

/-- Folds the padded message through the compression function, 64 bytes at
a time; `fuel` is the number of blocks. -/
def blocksLoop (hs : List Nat) (rest : List Nat) : Nat → List Nat
  | 0 => hs
  | fuel + 1 => blocksLoop (compressBlock hs (rest.take 64)) (rest.drop 64) fuel

/-- SHA-256 of a byte list (Python `hashlib.sha256(...).digest()`). -/
def sha256 (msg : List Nat) : List Nat :=
  let p := sha256pad msg
  ((blocksLoop sha256H0 p (p.length / 64)).map wordBytes).flatten

/-- HMAC-SHA256 digest (Python `hmac.new(key, msg, hashlib.sha256).digest()`). -/
def hmacSha256 (key msg : List Nat) : List Nat :=
  let k0 := if 64 < key.length then sha256 key else key
  let k := k0 ++ List.replicate (64 - k0.length) 0
  let ipad := k.map (fun b => b ^^^ 54)
  let opad := k.map (fun b => b ^^^ 92)
  sha256 (opad ++ sha256 (ipad ++ msg))

/-! ### Auth layer (modelled from the spec) -/

/-- Modelled from the spec: `ainative/auth.py` is absent from the sources
(only its unit tests remain).  `AuthConfig` holds the API key and the
API secret, each optional. -/
structure AuthConfig where
  api_key : Option String
  api_secret : Option String

/-- Modelled from the spec: `APIKeyAuth._generate_signature` is absent from
the sources.  It HMAC-signs the message `api_key + timestamp` with the API
secret using SHA-256 and base64-encodes the digest. -/
def generate_signature (cfg : AuthConfig) (timestamp : String) : String :=
  base64Encode (hmacSha256 (strBytes (cfg.api_secret.getD ""))
    (strBytes (cfg.api_key.getD "" ++ timestamp)))

/-- Modelled from the spec: `APIKeyAuth.get_headers` is absent from the
sources.  It composes the authentication headers: it raises `ValueError`
when no API key is configured; it always sends `X-API-Key`,
`X-SDK-Version` and `X-SDK-Language`; and when an API secret is configured
it adds the HMAC request-signing headers `X-Timestamp` (the current Unix
time as a decimal string) and `X-Signature`.  The current time is passed
explicitly as `now`. -/
def get_headers (cfg : AuthConfig) (now : Nat) :
    Except String (List (String × String)) :=
  if pyTruthyStr cfg.api_key then
    let key := cfg.api_key.getD ""
    let base := [("X-API-Key", key), ("X-SDK-Version", "0.1.0"),
                 ("X-SDK-Language", "Python")]
    if pyTruthyStr cfg.api_secret then
      let ts := toString now
      Except.ok (base ++ [("X-Timestamp", ts),
        ("X-Signature", generate_signature cfg ts)])
    else Except.ok base
  else Except.error "API key not configured"

/-- Lookup of a header value by name (first match). -/
def headerLookup (hs : List (String × String)) (k : String) : Option String :=
  (hs.find? (fun p => p.1 == k)).map (fun p => p.2)

/-! ### Exceptions (modelled from the spec) -/

/-- Modelled from the spec: `ainative/exceptions.py` is absent from the
sources (only its unit tests remain).  The attributes every exception in
the hierarchy carries from the base class `AINativeException`. -/
structure BaseExceptionData where
  message : String
  error_code : Option String

/-- Modelled from the spec: the typed error hierarchy of
`ainative/exceptions.py`.  One constructor per exception class derived
from `AINativeException`, each carrying its extra fields. -/
inductive PyExc where
  | aiNativeException (message : String) (error_code : Option String)
  | authenticationError (message : String)
  | apiError (message : String) (status_code : Option Nat)
      (response_body : Option String)
  | networkError (message : String)
  | validationError (message : String) (field : Option String)
  | rateLimitError (message : String) (retry_after : Option Int)
  | resourceNotFoundError (resource_type : String) (resource_id : String)
  | timeoutError (message : String)
deriving Repr

/-- Modelled from the spec: the `error_code` each exception class sets on
the base class. -/
def PyExc.errorCode : PyExc → Option String
  | .aiNativeException _ code => code
  | .authenticationError _ => some "AUTH_ERROR"
  | .apiError _ _ _ => some "API_ERROR"
  | .networkError _ => some "NETWORK_ERROR"
  | .validationError _ _ => some "VALIDATION_ERROR"
  | .rateLimitError _ _ => some "RATE_LIMIT"
  | .resourceNotFoundError _ _ => some "NOT_FOUND"
  | .timeoutError _ => some "TIMEOUT"

/-- Modelled from the spec: the `message` each exception exposes via the
base class. -/
def PyExc.message : PyExc → String
  | .aiNativeException m _ => m
  | .authenticationError m => m
  | .apiError m _ _ => m
  | .networkError m => m
  | .validationError m _ => m
  | .rateLimitError m _ => m
  | .resourceNotFoundError t i => t ++ " with ID " ++ i ++ " not found"
  | .timeoutError m => m

/-- Every exception in the hierarchy is an `AINativeException`: its view
through the base class interface. -/
def PyExc.toBase (e : PyExc) : BaseExceptionData :=
  { message := e.message, error_code := e.errorCode }

/-! ### Client layer (modelled from the spec) -/

/-- Modelled from the spec: `ainative/client.py` is absent from the
sources (only its unit tests remain).  `ClientConfig` carries the retry
parameters used by the request loop; the defaults are `max_retries = 3`
and `retry_delay = 1.0` seconds. -/
structure ClientConfig where
  max_retries : Nat
  retry_delay : ℚ

/-- The default `ClientConfig`. -/
def ClientConfig.default : ClientConfig :=
  { max_retries := 3, retry_delay := 1 }

/-- Parses a run of decimal digits, accumulating the value; fails on any
non-digit character. -/
def parseDigitsAux : List Char → Nat → Option Nat
  | [], acc => some acc
  | c :: cs, acc =>
    if 48 ≤ c.toNat ∧ c.toNat ≤ 57 then
      parseDigitsAux cs (acc * 10 + (c.toNat - 48))
    else none

/-- Python `int(s)` on a decimal string literal (an optional minus sign
followed by digits); `none` models the raised `ValueError`. -/
def parsePyInt (s : String) : Option Int :=
  match s.toList with
  | [] => none
  | '-' :: cs =>
    if cs.isEmpty then none
    else (parseDigitsAux cs 0).map (fun n => -(n : Int))
  | cs => (parseDigitsAux cs 0).map (fun n => (n : Int))

/-- An HTTP response as seen by the client: status code, raw text, the
parsed JSON body, and the response headers. -/
structure HTTPResponse where
  status_code : Nat
  text : String
  jsonBody : JValue
  headers : List (String × String)

/-- Modelled from the spec: the client's response handling, which
"translates HTTP status codes into a typed error hierarchy".  A success
status (2xx) yields the parsed JSON body (the empty object for an empty
response); 401 raises `AuthenticationError`; 429 raises `RateLimitError`
with `retry_after` read from the `Retry-After` header; every other status
raises `APIError` carrying the status code and the response body. -/
def handleResponse (r : HTTPResponse) : Except PyExc JValue :=
  if 200 ≤ r.status_code ∧ r.status_code < 300 then
    Except.ok (if r.text == "" then JValue.obj [] else r.jsonBody)
  else if r.status_code == 401 then
    Except.error (PyExc.authenticationError "Authentication failed")
  else if r.status_code == 429 then
    Except.error (PyExc.rateLimitError "Rate limit exceeded"
      ((headerLookup r.headers "Retry-After").bind parsePyInt))
  else
    Except.error (PyExc.apiError
      ("API request failed with status " ++ toString r.status_code)
      (some r.status_code) (some r.text))

/-- The outcome of one underlying HTTP attempt: either a response, or a
transient network failure (connection error or timeout). -/
inductive AttemptResult where
  | response (r : HTTPResponse)
  | netFailure (msg : String)

/-- The observable trace of one `request` call: the final outcome, the
number of underlying HTTP attempts made, and the sleep durations (in
seconds) performed between consecutive attempts. -/
structure RequestTrace where
  outcome : Except PyExc JValue
  attemptCount : Nat
  sleeps : List ℚ

/-- Modelled from the spec: the bounded retry loop of
`AINativeClient.request`, with "linear retry" backoff.  Attempt `i`
(0-based) is made if allowed by the remaining budget `fuel`; a response is
handled immediately (HTTP errors are not retried); a transient network
failure is retried after sleeping `retry_delay * (i + 1)` seconds while
budget remains, and raises `NetworkError` once the budget is exhausted. -/
def retryAux (delay : ℚ) (attempts : Nat → AttemptResult) (i : Nat) :
    Nat → RequestTrace
  | 0 => { outcome := Except.error (PyExc.networkError "request failed"),
           attemptCount := 0, sleeps := [] }
  | fuel + 1 =>
    match attempts i with
    | AttemptResult.response r =>
      { outcome := handleResponse r, attemptCount := 1, sleeps := [] }
    | AttemptResult.netFailure msg =>
      if fuel == 0 then
        { outcome := Except.error (PyExc.networkError msg),
          attemptCount := 1, sleeps := [] }
      else
        let rest := retryAux delay attempts (i + 1) fuel
        { outcome := rest.outcome, attemptCount := rest.attemptCount + 1,
          sleeps := delay * ((i + 1 : ℕ) : ℚ) :: rest.sleeps }

/-- Modelled from the spec: `AINativeClient.request` makes at most
`max_retries` underlying HTTP attempts, starting at attempt 0.  The
environment is abstracted as the function `attempts` giving the outcome of
each underlying attempt. -/
def runRequest (cfg : ClientConfig) (attempts : Nat → AttemptResult) :
    RequestTrace :=
  retryAux cfg.retry_delay attempts 0 cfg.max_retries

/-- Modelled from the spec: the base headers of every dispatched request.
The auth headers from `get_headers` come first (propagating the
`ValueError` when no API key is configured), then `X-Organization-ID` when
an organization ID is set on the client. -/
def baseHeaders (cfg : AuthConfig) (organization_id : Option String)
    (now : Nat) : Except String (List (String × String)) :=
  match get_headers cfg now with
  | Except.error e => Except.error e
  | Except.ok auth =>
    Except.ok (auth ++ (match organization_id with
      | some org => [("X-Organization-ID", org)]
      | none => []))

/-- Modelled from the spec: the header composition of
`AINativeClient.request`.  The caller's custom headers are merged into the
base headers without replacing any of them. -/
def requestHeaders (cfg : AuthConfig) (organization_id : Option String)
    (now : Nat) (custom : List (String × String)) :
    Except String (List (String × String)) :=
  match baseHeaders cfg organization_id now with
  | Except.error e => Except.error e
  | Except.ok base =>
    Except.ok (base ++ custom.filter (fun p => headerLookup base p.1 = none))

/-! ### Theorems about the agent swarm resource layer -/

open AgentSwarmClient in
/-- C6: Every `AgentSwarmClient` resource method leaves all fields of the
`AgentSwarmClient` (its parent client reference and `base_path`) unchanged,
and the endpoint path plus JSON body/query parameters it passes to the
parent client are determined solely by the method's arguments (for clients
built by `__init__`, the dispatched request does not depend on the parent
client): two calls of the same method with equal arguments dispatch
identical requests. -/
theorem agent_swarm_methods_are_pure (c : AgentSwarmClient) (p q : Nat)
    (project_id objective swarm_id task agent_id prompt name : String)
    (agents : List JValue) (agent_list : Option (List String))
    (context config : Option (List (String × JValue)))
    (cfgd : List (String × JValue)) (swarm_filter project_filter
      system_prompt opt_agent_id : Option String)
    (force : Bool) (limit : Int) (agent_type : AgentType)
    (capabilities : List String) :
    ((c.start_swarm project_id agents objective config).1 = c ∧
      ((AgentSwarmClient.init p).start_swarm project_id agents objective config).2 =
      ((AgentSwarmClient.init q).start_swarm project_id agents objective config).2) ∧
    ((c.orchestrate swarm_id task context agent_list).1 = c ∧
      ((AgentSwarmClient.init p).orchestrate swarm_id task context agent_list).2 =
      ((AgentSwarmClient.init q).orchestrate swarm_id task context agent_list).2) ∧
    ((c.get_status swarm_id).1 = c ∧
      ((AgentSwarmClient.init p).get_status swarm_id).2 =
      ((AgentSwarmClient.init q).get_status swarm_id).2) ∧
    ((c.get_metrics swarm_filter project_filter).1 = c ∧
      ((AgentSwarmClient.init p).get_metrics swarm_filter project_filter).2 =
      ((AgentSwarmClient.init q).get_metrics swarm_filter project_filter).2) ∧
    ((c.get_agent_types_req).1 = c ∧
      ((AgentSwarmClient.init p).get_agent_types_req).2 =
      ((AgentSwarmClient.init q).get_agent_types_req).2) ∧
    ((c.configure_agent swarm_id agent_id cfgd).1 = c ∧
      ((AgentSwarmClient.init p).configure_agent swarm_id agent_id cfgd).2 =
      ((AgentSwarmClient.init q).configure_agent swarm_id agent_id cfgd).2) ∧
    ((c.set_agent_prompt swarm_id agent_id prompt system_prompt).1 = c ∧
      ((AgentSwarmClient.init p).set_agent_prompt swarm_id agent_id prompt system_prompt).2 =
      ((AgentSwarmClient.init q).set_agent_prompt swarm_id agent_id prompt system_prompt).2) ∧
    ((c.stop_swarm swarm_id force).1 = c ∧
      ((AgentSwarmClient.init p).stop_swarm swarm_id force).2 =
      ((AgentSwarmClient.init q).stop_swarm swarm_id force).2) ∧
    ((c.pause_swarm swarm_id).1 = c ∧
      ((AgentSwarmClient.init p).pause_swarm swarm_id).2 =
      ((AgentSwarmClient.init q).pause_swarm swarm_id).2) ∧
    ((c.resume_swarm swarm_id).1 = c ∧
      ((AgentSwarmClient.init p).resume_swarm swarm_id).2 =
      ((AgentSwarmClient.init q).resume_swarm swarm_id).2) ∧
    ((c.get_swarm_history_req swarm_id limit).1 = c ∧
      ((AgentSwarmClient.init p).get_swarm_history_req swarm_id limit).2 =
      ((AgentSwarmClient.init q).get_swarm_history_req swarm_id limit).2) ∧
    ((c.get_agent_communications_req swarm_id opt_agent_id).1 = c ∧
      ((AgentSwarmClient.init p).get_agent_communications_req swarm_id opt_agent_id).2 =
      ((AgentSwarmClient.init q).get_agent_communications_req swarm_id opt_agent_id).2) ∧
    ((c.create_agent name agent_type capabilities prompt config).1 = c ∧
      ((AgentSwarmClient.init p).create_agent name agent_type capabilities prompt config).2 =
      ((AgentSwarmClient.init q).create_agent name agent_type capabilities prompt config).2) :=
  ⟨⟨rfl, rfl⟩, ⟨rfl, rfl⟩, ⟨rfl, rfl⟩, ⟨rfl, rfl⟩, ⟨rfl, rfl⟩, ⟨rfl, rfl⟩,
   ⟨rfl, rfl⟩, ⟨rfl, rfl⟩, ⟨rfl, rfl⟩, ⟨rfl, rfl⟩, ⟨rfl, rfl⟩, ⟨rfl, rfl⟩,
   ⟨rfl, rfl⟩⟩

open AgentSwarmClient in
/-- C7: `get_agent_types` returns the value under the `agent_types` key of
the response envelope, `get_swarm_history` the value under `history`, and
`get_agent_communications` the value under `communications`; when the
respective key is absent each returns the empty list. -/
theorem envelope_unwrap_with_default (response : List (String × JValue))
    (v : JValue) :
    (jdictGet response "agent_types" = some v →
      get_agent_types_unwrap response = v) ∧
    (jdictGet response "agent_types" = none →
      get_agent_types_unwrap response = JValue.arr []) ∧
    (jdictGet response "history" = some v →
      get_swarm_history_unwrap response = v) ∧
    (jdictGet response "history" = none →
      get_swarm_history_unwrap response = JValue.arr []) ∧
    (jdictGet response "communications" = some v →
      get_agent_communications_unwrap response = v) ∧
    (jdictGet response "communications" = none →
      get_agent_communications_unwrap response = JValue.arr []) := by
  refine ⟨fun h => ?_, fun h => ?_, fun h => ?_, fun h => ?_, fun h => ?_,
    fun h => ?_⟩ <;>
    simp [get_agent_types_unwrap, get_swarm_history_unwrap,
      get_agent_communications_unwrap, h]

/-- Sample response envelope containing an `agent_types` entry. -/
def sampleTypesResponse : List (String × JValue) :=
  [("agent_types", JValue.arr [JValue.str "researcher"])]

/-- Witness for C7: on a concrete envelope holding an `agent_types` entry,
`get_agent_types` returns it; on the same envelope the `history` and
`communications` unwraps fall back to the empty list. -/
theorem envelope_unwrap_with_default_witness :
    AgentSwarmClient.get_agent_types_unwrap sampleTypesResponse =
      JValue.arr [JValue.str "researcher"] ∧
    AgentSwarmClient.get_swarm_history_unwrap sampleTypesResponse =
      JValue.arr [] ∧
    AgentSwarmClient.get_agent_communications_unwrap sampleTypesResponse =
      JValue.arr [] :=
  ⟨(envelope_unwrap_with_default sampleTypesResponse
      (JValue.arr [JValue.str "researcher"])).1 rfl,
   (envelope_unwrap_with_default sampleTypesResponse
      (JValue.arr [JValue.str "researcher"])).2.2.2.1 rfl,
   (envelope_unwrap_with_default sampleTypesResponse
      (JValue.arr [JValue.str "researcher"])).2.2.2.2.2 rfl⟩

open AgentSwarmClient in
/-- C8: in `orchestrate`, `get_metrics` and `set_agent_prompt` an optional
argument is included in the body/query parameters only when it is truthy:
any falsy value (`None`, empty list, empty string) dispatches the same
request as the absent argument; `orchestrate` with `agents=[]` sends a body
without an `agents` key, and `get_metrics` with both filters `None` sends
empty query parameters. -/
theorem falsy_optionals_omitted (c : AgentSwarmClient)
    (swarm_id task agent_id prompt : String)
    (context : Option (List (String × JValue))) :
    (∀ agents : Option (List String), pyTruthyList agents = false →
      c.orchestrate swarm_id task context agents =
        c.orchestrate swarm_id task context none) ∧
    (jdictGet (((c.orchestrate swarm_id task context (some [])).2.body).getD [])
      "agents" = none) ∧
    (∀ a l, jdictGet
      (((c.orchestrate swarm_id task context (some (a :: l))).2.body).getD [])
      "agents" = some (JValue.arr ((a :: l).map JValue.str))) ∧
    (∀ sid pid : Option String, pyTruthyStr sid = false →
      c.get_metrics sid pid = c.get_metrics none pid) ∧
    (∀ sid pid : Option String, pyTruthyStr pid = false →
      c.get_metrics sid pid = c.get_metrics sid none) ∧
    ((c.get_metrics none none).2.params = some []) ∧
    (∀ sp : Option String, pyTruthyStr sp = false →
      c.set_agent_prompt swarm_id agent_id prompt sp =
        c.set_agent_prompt swarm_id agent_id prompt none) ∧
    (∀ s : String, pyTruthyStr (some s) = true →
      jdictGet (((c.set_agent_prompt swarm_id agent_id prompt (some s)).2.body).getD [])
        "system_prompt" = some (JValue.str s)) := by
  refine ⟨?_, rfl, fun a l => rfl, ?_, ?_, rfl, ?_, ?_⟩
  · rintro (_ | (_ | ⟨a, l⟩)) h
    · rfl
    · rfl
    · simp [pyTruthyList] at h
  · rintro (_ | s) pid h
    · rfl
    · simp [pyTruthyStr] at h
      subst h; rfl
  · rintro sid (_ | s) h
    · rfl
    · simp [pyTruthyStr] at h
      subst h; rfl
  · rintro (_ | s) h
    · rfl
    · simp [pyTruthyStr] at h
      subst h; rfl
  · intro s h
    simp [set_agent_prompt, h, jdictGet]

/-- Witness for C8: with concrete arguments, `orchestrate` with `agents=[]`
equals `orchestrate` with the argument absent and its body has no `agents`
key; `get_metrics` with empty-string filters equals `get_metrics` with
absent filters and sends empty query parameters; `set_agent_prompt` with an
empty system prompt equals the call with the argument absent, and with a
non-empty one includes the `system_prompt` key. -/
theorem falsy_optionals_omitted_witness :
    ((AgentSwarmClient.init 0).orchestrate "sw1" "do" none (some []) =
      (AgentSwarmClient.init 0).orchestrate "sw1" "do" none none) ∧
    (jdictGet ((((AgentSwarmClient.init 0).orchestrate "sw1" "do" none
      (some [])).2.body).getD []) "agents" = none) ∧
    ((AgentSwarmClient.init 0).get_metrics (some "") (some "") =
      (AgentSwarmClient.init 0).get_metrics none (some "")) ∧
    (((AgentSwarmClient.init 0).get_metrics none none).2.params = some []) ∧
    ((AgentSwarmClient.init 0).set_agent_prompt "sw1" "ag1" "p" (some "") =
      (AgentSwarmClient.init 0).set_agent_prompt "sw1" "ag1" "p" none) ∧
    (jdictGet ((((AgentSwarmClient.init 0).set_agent_prompt "sw1" "ag1" "p"
      (some "sys")).2.body).getD []) "system_prompt" =
      some (JValue.str "sys")) :=
  ⟨(falsy_optionals_omitted (AgentSwarmClient.init 0) "sw1" "do" "x" "y"
      none).1 (some []) rfl,
   (falsy_optionals_omitted (AgentSwarmClient.init 0) "sw1" "do" "x" "y"
      none).2.1,
   (falsy_optionals_omitted (AgentSwarmClient.init 0) "sw1" "do" "x" "y"
      none).2.2.2.1 (some "") (some "") rfl,
   (falsy_optionals_omitted (AgentSwarmClient.init 0) "sw1" "do" "x" "y"
      none).2.2.2.2.2.1,
   (falsy_optionals_omitted (AgentSwarmClient.init 0) "sw1" "t" "ag1" "p"
      none).2.2.2.2.2.2.1 (some "") rfl,
   (falsy_optionals_omitted (AgentSwarmClient.init 0) "sw1" "t" "ag1" "p"
      none).2.2.2.2.2.2.2 "sys" rfl⟩

open AgentSwarmClient in
/-- C9: the bodies of `start_swarm` and `create_agent` always contain all
of their keys, with the `config` field equal to the empty object whenever
the `config` argument is `None`; `orchestrate` likewise sends `context` as
the empty object when `context` is `None`. -/
theorem marshaling_total_bodies (c : AgentSwarmClient)
    (project_id objective name prompt swarm_id task : String)
    (agents : List JValue) (capabilities : List String)
    (agent_type : AgentType)
    (config context : Option (List (String × JValue))) :
    (jdictGet (((c.start_swarm project_id agents objective config).2.body).getD [])
      "project_id" = some (JValue.str project_id)) ∧
    (jdictGet (((c.start_swarm project_id agents objective config).2.body).getD [])
      "agents" = some (JValue.arr agents)) ∧
    (jdictGet (((c.start_swarm project_id agents objective config).2.body).getD [])
      "objective" = some (JValue.str objective)) ∧
    (jdictGet (((c.start_swarm project_id agents objective config).2.body).getD [])
      "config" = some (JValue.obj (pyOrEmptyDict config))) ∧
    (config = none →
      jdictGet (((c.start_swarm project_id agents objective config).2.body).getD [])
        "config" = some (JValue.obj [])) ∧
    (jdictGet (((c.create_agent name agent_type capabilities prompt config).2.body).getD [])
      "name" = some (JValue.str name)) ∧
    (jdictGet (((c.create_agent name agent_type capabilities prompt config).2.body).getD [])
      "type" = some (JValue.str agent_type.value)) ∧
    (jdictGet (((c.create_agent name agent_type capabilities prompt config).2.body).getD [])
      "capabilities" = some (JValue.arr (capabilities.map JValue.str))) ∧
    (jdictGet (((c.create_agent name agent_type capabilities prompt config).2.body).getD [])
      "prompt" = some (JValue.str prompt)) ∧
    (jdictGet (((c.create_agent name agent_type capabilities prompt config).2.body).getD [])
      "config" = some (JValue.obj (pyOrEmptyDict config))) ∧
    (config = none →
      jdictGet (((c.create_agent name agent_type capabilities prompt config).2.body).getD [])
        "config" = some (JValue.obj [])) ∧
    (jdictGet (((c.orchestrate swarm_id task context none).2.body).getD [])
      "context" = some (JValue.obj (pyOrEmptyDict context))) ∧
    (context = none →
      jdictGet (((c.orchestrate swarm_id task context none).2.body).getD [])
        "context" = some (JValue.obj [])) := by
  refine ⟨rfl, rfl, rfl, rfl, fun h => ?_, rfl, rfl, rfl, rfl, rfl,
    fun h => ?_, rfl, fun h => ?_⟩ <;> (subst h; rfl)

/-- Witness for C9: with `config` and `context` absent, the `config` field
of `start_swarm` and `create_agent` and the `context` field of
`orchestrate` are the empty object (and the other keys are all present). -/
theorem marshaling_total_bodies_witness :
    (jdictGet ((((AgentSwarmClient.init 0).start_swarm "proj" [] "obj"
      none).2.body).getD []) "project_id" = some (JValue.str "proj")) ∧
    (jdictGet ((((AgentSwarmClient.init 0).start_swarm "proj" [] "obj"
      none).2.body).getD []) "config" = some (JValue.obj [])) ∧
    (jdictGet ((((AgentSwarmClient.init 0).create_agent "bot"
      AgentType.coder ["c"] "p" none).2.body).getD []) "config" =
      some (JValue.obj [])) ∧
    (jdictGet ((((AgentSwarmClient.init 0).orchestrate "sw" "t" none
      none).2.body).getD []) "context" = some (JValue.obj [])) :=
  ⟨(marshaling_total_bodies (AgentSwarmClient.init 0) "proj" "obj" "bot" "p"
      "sw" "t" [] ["c"] AgentType.coder none none).1,
   (marshaling_total_bodies (AgentSwarmClient.init 0) "proj" "obj" "bot" "p"
      "sw" "t" [] ["c"] AgentType.coder none none).2.2.2.2.1 rfl,
   (marshaling_total_bodies (AgentSwarmClient.init 0) "proj" "obj" "bot" "p"
      "sw" "t" [] ["c"] AgentType.coder none none).2.2.2.2.2.2.2.2.2.2.1 rfl,
   (marshaling_total_bodies (AgentSwarmClient.init 0) "proj" "obj" "bot" "p"
      "sw" "t" [] ["c"] AgentType.coder none none).2.2.2.2.2.2.2.2.2.2.2.2 rfl⟩

open AgentSwarmClient in
/-- C10: the `type` field of every `create_agent` body equals
`agent_type.value`, which is always one of the eight strings of the
`AgentType` enum. -/
theorem create_agent_type_enum (c : AgentSwarmClient) (name : String)
    (agent_type : AgentType) (capabilities : List String) (prompt : String)
    (config : Option (List (String × JValue))) :
    jdictGet (((c.create_agent name agent_type capabilities prompt config).2.body).getD [])
      "type" = some (JValue.str agent_type.value) ∧
    agent_type.value ∈ ["researcher", "coder", "reviewer", "tester",
      "documenter", "analyst", "designer", "orchestrator"] :=
  ⟨rfl, by cases agent_type <;> simp [AgentType.value]⟩

/-! ### Theorems about the client layer -/

/-- C2: `handleResponse` maps a 401 response to `AuthenticationError`, a
429 response to `RateLimitError` whose `retry_after` is the integer value
of the `Retry-After` header, and every other non-success status to an
`APIError` carrying the status code and the response body; these exception
types all live in the hierarchy under `AINativeException` (via `toBase`)
with pairwise distinct error codes. -/
theorem status_error_mapping (r : HTTPResponse) :
    (r.status_code = 401 →
      handleResponse r =
        Except.error (PyExc.authenticationError "Authentication failed")) ∧
    (∀ z : Int, r.status_code = 429 →
      (headerLookup r.headers "Retry-After").bind parsePyInt = some z →
      handleResponse r =
        Except.error (PyExc.rateLimitError "Rate limit exceeded" (some z))) ∧
    (¬(200 ≤ r.status_code ∧ r.status_code < 300) →
      r.status_code ≠ 401 → r.status_code ≠ 429 →
      handleResponse r = Except.error (PyExc.apiError
        ("API request failed with status " ++ toString r.status_code)
        (some r.status_code) (some r.text))) ∧
    ((∀ m, (PyExc.authenticationError m).toBase.error_code =
        some "AUTH_ERROR") ∧
     (∀ m ra, (PyExc.rateLimitError m ra).toBase.error_code =
        some "RATE_LIMIT") ∧
     (∀ m sc rb, (PyExc.apiError m sc rb).toBase.error_code =
        some "API_ERROR") ∧
     ("AUTH_ERROR" : String) ≠ "RATE_LIMIT" ∧
     ("AUTH_ERROR" : String) ≠ "API_ERROR" ∧
     ("RATE_LIMIT" : String) ≠ "API_ERROR") := by
  refine ⟨fun h => ?_, fun z h hz => ?_, fun hs h1 h4 => ?_,
    fun m => rfl, fun m ra => rfl, fun m sc rb => rfl,
    by decide, by decide, by decide⟩
  · simp [handleResponse, h]
  · simp [handleResponse, h, hz]
  · simp [handleResponse, hs, h1, h4]

/-- Sample 401 response. -/
def resp401 : HTTPResponse :=
  { status_code := 401, text := "Unauthorized", jsonBody := JValue.obj [],
    headers := [] }

/-- Sample 429 response with a `Retry-After` header of 60 seconds. -/
def resp429 : HTTPResponse :=
  { status_code := 429, text := "", jsonBody := JValue.obj [],
    headers := [("Retry-After", "60")] }

/-- Sample 400 response with a body. -/
def resp400 : HTTPResponse :=
  { status_code := 400, text := "Bad request", jsonBody := JValue.obj [],
    headers := [] }

/-- Sample 500 response. -/
def resp500 : HTTPResponse :=
  { status_code := 500, text := "Internal Server Error",
    jsonBody := JValue.obj [], headers := [] }

/-- Witness for C2: the error mapping evaluated on concrete 401, 429, 400
and 500 responses. -/
theorem status_error_mapping_witness :
    handleResponse resp401 =
      Except.error (PyExc.authenticationError "Authentication failed") ∧
    handleResponse resp429 =
      Except.error (PyExc.rateLimitError "Rate limit exceeded" (some 60)) ∧
    handleResponse resp400 = Except.error (PyExc.apiError
      "API request failed with status 400" (some 400) (some "Bad request")) ∧
    handleResponse resp500 = Except.error (PyExc.apiError
      "API request failed with status 500" (some 500)
      (some "Internal Server Error")) := by
  refine ⟨(status_error_mapping resp401).1 rfl, ?_, ?_, ?_⟩
  · exact (status_error_mapping resp429).2.1 60 rfl (by decide)
  · exact ((status_error_mapping resp400).2.2.1 (by decide) (by decide)
      (by decide)).trans rfl
  · exact ((status_error_mapping resp500).2.2.1 (by decide) (by decide)
      (by decide)).trans rfl

/-- C3: when both an API key and an API secret are configured, the
composed headers contain `X-Timestamp` (the Unix time as a decimal string)
and `X-Signature` equal to the base64 encoding of the HMAC-SHA256 digest,
keyed by the API secret, of the API key concatenated with the timestamp;
without an API secret, neither header is present. -/
theorem hmac_signing_headers (cfg : AuthConfig) (now : Nat) :
    (pyTruthyStr cfg.api_key = true → pyTruthyStr cfg.api_secret = true →
      ∃ hs, get_headers cfg now = Except.ok hs ∧
        headerLookup hs "X-Timestamp" = some (toString now) ∧
        headerLookup hs "X-Signature" =
          some (generate_signature cfg (toString now)) ∧
        generate_signature cfg (toString now) = base64Encode (hmacSha256
          (strBytes (cfg.api_secret.getD ""))
          (strBytes (cfg.api_key.getD "" ++ toString now)))) ∧
    (pyTruthyStr cfg.api_secret = false →
      ∀ hs, get_headers cfg now = Except.ok hs →
        headerLookup hs "X-Timestamp" = none ∧
        headerLookup hs "X-Signature" = none) := by
  constructor
  · intro hk hsec
    simp only [get_headers, hk, hsec, if_true]
    exact ⟨_, rfl, rfl, rfl, rfl⟩
  · intro hsec hs h
    by_cases hk : pyTruthyStr cfg.api_key = true
    · simp only [get_headers, hk, hsec, if_true, Bool.false_eq_true,
        if_false, Except.ok.injEq] at h
      subst h
      exact ⟨rfl, rfl⟩
    · simp only [Bool.not_eq_true] at hk
      simp [get_headers, hk] at h

/-- Sample auth configuration with both an API key and an API secret. -/
def sampleAuth : AuthConfig :=
  { api_key := some "test-api-key-12345",
    api_secret := some "test-api-secret-67890" }

/-- Sample auth configuration with an API key but no API secret. -/
def keyOnlyAuth : AuthConfig :=
  { api_key := some "test-key", api_secret := none }

/-- Witness for C3: on a concrete configuration with a secret the signing
headers are present with the HMAC value, and on a concrete configuration
without a secret the returned header list has neither signing header. -/
theorem hmac_signing_headers_witness :
    (∃ hs, get_headers sampleAuth 1704067200 = Except.ok hs ∧
      headerLookup hs "X-Timestamp" = some (toString 1704067200) ∧
      headerLookup hs "X-Signature" =
        some (generate_signature sampleAuth (toString 1704067200)) ∧
      generate_signature sampleAuth (toString 1704067200) =
        base64Encode (hmacSha256 (strBytes "test-api-secret-67890")
          (strBytes ("test-api-key-12345" ++ toString 1704067200)))) ∧
    (headerLookup [("X-API-Key", "test-key"), ("X-SDK-Version", "0.1.0"),
        ("X-SDK-Language", "Python")] "X-Timestamp" = none ∧
      headerLookup [("X-API-Key", "test-key"), ("X-SDK-Version", "0.1.0"),
        ("X-SDK-Language", "Python")] "X-Signature" = none) :=
  ⟨(hmac_signing_headers sampleAuth 1704067200).1 rfl rfl,
   (hmac_signing_headers keyOnlyAuth 1704067200).2 rfl
     [("X-API-Key", "test-key"), ("X-SDK-Version", "0.1.0"),
      ("X-SDK-Language", "Python")] rfl⟩

/-- Header lookup distributes over list append. -/
theorem headerLookup_append (l1 l2 : List (String × String)) (k : String) :
    headerLookup (l1 ++ l2) k =
      (headerLookup l1 k).or (headerLookup l2 k) := by
  unfold headerLookup
  rw [List.find?_append]
  cases List.find? (fun p => p.1 == k) l1 <;> rfl

/-- Header lookup on a cons cell. -/
theorem headerLookup_cons (p : String × String) (l : List (String × String))
    (k : String) :
    headerLookup (p :: l) k =
      if p.1 == k then some p.2 else headerLookup l k := by
  by_cases hp : p.1 == k <;> simp [headerLookup, List.find?, hp]

/-- Filtering out the headers whose key is already bound in `base` does not
change the lookup of a key unbound in `base`. -/
theorem headerLookup_filter_of_none (base custom : List (String × String))
    (k : String) (h : headerLookup base k = none) :
    headerLookup (custom.filter (fun p => headerLookup base p.1 = none)) k =
      headerLookup custom k := by
  induction custom with
  | nil => rfl
  | cons p rest ih =>
    rw [List.filter_cons]
    by_cases hq : headerLookup base p.1 = none
    · rw [if_pos (by simpa using hq), headerLookup_cons, headerLookup_cons]
      by_cases hk : p.1 == k
      · rw [if_pos hk, if_pos hk]
      · rw [if_neg hk, if_neg hk]
        exact ih
    · have hk : (p.1 == k) = false := by
        rcases eq_or_ne p.1 k with he | hne
        · exact absurd (he ▸ h) hq
        · simp [hne]
      rw [if_neg (by simpa using hq), headerLookup_cons, if_neg (by simp [hk])]
      exact ih

/-- The merged headers keep every binding of the base headers. -/
theorem merged_keeps_base (base custom : List (String × String))
    (k v : String) (h : headerLookup base k = some v) :
    headerLookup
      (base ++ custom.filter (fun p => headerLookup base p.1 = none)) k =
      some v := by
  rw [headerLookup_append, h]; rfl

/-- The merged headers bind a key unbound in the base headers exactly as
the custom headers do. -/
theorem merged_adds_custom (base custom : List (String × String))
    (k : String) (h : headerLookup base k = none) :
    headerLookup
      (base ++ custom.filter (fun p => headerLookup base p.1 = none)) k =
      headerLookup custom k := by
  rw [headerLookup_append, h, headerLookup_filter_of_none base custom k h]
  rfl

/-- The authentication headers returned for a configured API key start
with `X-API-Key`, the SDK version and the SDK language, followed by a tail
that never binds `X-Organization-ID`. -/
theorem get_headers_ok_shape (cfg : AuthConfig) (now : Nat) (k : String)
    (hk : cfg.api_key = some k) (ht : pyTruthyStr cfg.api_key = true) :
    ∃ rest, get_headers cfg now = Except.ok
        ([("X-API-Key", k), ("X-SDK-Version", "0.1.0"),
          ("X-SDK-Language", "Python")] ++ rest) ∧
      headerLookup rest "X-Organization-ID" = none := by
  have ht2 : pyTruthyStr (some k) = true := hk ▸ ht
  by_cases hsec : pyTruthyStr cfg.api_secret = true
  · exact ⟨[("X-Timestamp", toString now),
      ("X-Signature", generate_signature cfg (toString now))],
      by simp [get_headers, hk, ht2, hsec], rfl⟩
  · refine ⟨[], ?_, rfl⟩
    simp only [Bool.not_eq_true] at hsec
    simp [get_headers, hk, ht2, hsec]

/-- Computation rule for `baseHeaders` when `get_headers` succeeds. -/
theorem baseHeaders_ok (cfg : AuthConfig) (org : Option String) (now : Nat)
    (a : List (String × String)) (h : get_headers cfg now = Except.ok a) :
    baseHeaders cfg org now = Except.ok (a ++ (match org with
      | some o => [("X-Organization-ID", o)]
      | none => [])) := by
  simp [baseHeaders, h]

/-- Computation rule for `requestHeaders` when `baseHeaders` succeeds. -/
theorem requestHeaders_ok (cfg : AuthConfig) (org : Option String)
    (now : Nat) (custom : List (String × String))
    (b : List (String × String)) (h : baseHeaders cfg org now = Except.ok b) :
    requestHeaders cfg org now custom =
      Except.ok (b ++ custom.filter (fun p => headerLookup b p.1 = none)) := by
  simp [requestHeaders, h]

/-- C5: every dispatched request carries headers including `X-API-Key`
(the configured key), the SDK version and language headers, and
`X-Organization-ID` when an organization ID is set; a missing API key
raises `ValueError`; and caller-supplied custom headers are merged in
without replacing the base headers. -/
theorem dispatch_headers (cfg : AuthConfig) (org : Option String)
    (now : Nat) (custom : List (String × String)) :
    (pyTruthyStr cfg.api_key = false →
      requestHeaders cfg org now custom =
        Except.error "API key not configured") ∧
    (pyTruthyStr cfg.api_key = true →
      ∃ hs, requestHeaders cfg org now custom = Except.ok hs) ∧
    (∀ k base hs, cfg.api_key = some k →
      baseHeaders cfg org now = Except.ok base →
      requestHeaders cfg org now custom = Except.ok hs →
      headerLookup hs "X-API-Key" = some k ∧
      headerLookup hs "X-SDK-Version" = some "0.1.0" ∧
      headerLookup hs "X-SDK-Language" = some "Python" ∧
      (∀ o, org = some o →
        headerLookup hs "X-Organization-ID" = some o) ∧
      (∀ kk v, headerLookup base kk = some v →
        headerLookup hs kk = some v) ∧
      (∀ kk, headerLookup base kk = none →
        headerLookup hs kk = headerLookup custom kk)) := by
  refine ⟨?_, ?_, ?_⟩
  · intro hfalse
    simp [requestHeaders, baseHeaders, get_headers, hfalse]
  · intro ht
    rcases hke : cfg.api_key with _ | k
    · rw [hke] at ht
      simp [pyTruthyStr] at ht
    · obtain ⟨rest, hget, hrest⟩ := get_headers_ok_shape cfg now k hke ht
      exact ⟨_, requestHeaders_ok cfg org now custom _
        (baseHeaders_ok cfg org now _ hget)⟩
  · intro k base hs hke hBase hHs
    have ht : pyTruthyStr cfg.api_key = true := by
      by_contra hft
      simp only [Bool.not_eq_true] at hft
      simp [baseHeaders, get_headers, hft] at hBase
    obtain ⟨rest, hget, hrest⟩ := get_headers_ok_shape cfg now k hke ht
    have hBase2 := baseHeaders_ok cfg org now _ hget
    rw [hBase] at hBase2
    injection hBase2 with hbe
    subst hbe
    have hHs2 := requestHeaders_ok cfg org now custom _ hBase
    rw [hHs] at hHs2
    injection hHs2 with hse
    subst hse
    refine ⟨merged_keeps_base _ _ _ _ rfl, merged_keeps_base _ _ _ _ rfl,
      merged_keeps_base _ _ _ _ rfl, ?_,
      fun kk v h => merged_keeps_base _ _ kk v h,
      fun kk h => merged_adds_custom _ _ kk h⟩
    intro o ho
    subst ho
    apply merged_keeps_base
    rw [headerLookup_append, headerLookup_append, hrest]
    rfl

/-- The base headers composed for `sampleAuth` with organization
`org_test` at time 1704067200. -/
def sampleBaseHeaders : List (String × String) :=
  [("X-API-Key", "test-api-key-12345"), ("X-SDK-Version", "0.1.0"),
   ("X-SDK-Language", "Python"), ("X-Timestamp", "1704067200"),
   ("X-Signature", generate_signature sampleAuth "1704067200"),
   ("X-Organization-ID", "org_test")]

/-- The merged headers after adding a custom header to
`sampleBaseHeaders`. -/
def sampleMergedHeaders : List (String × String) :=
  sampleBaseHeaders ++ [("Custom-Header", "value")]

/-- Witness for C5: with no API key the request errors; with a concrete
configured key, organization and custom header, the merged headers carry
the API key, SDK headers, the organization ID and the custom header. -/
theorem dispatch_headers_witness :
    (requestHeaders { api_key := none, api_secret := none }
      (some "org_test") 0 [] = Except.error "API key not configured") ∧
    (∃ hs, requestHeaders sampleAuth (some "org_test") 1704067200
      [("Custom-Header", "value")] = Except.ok hs) ∧
    (headerLookup sampleMergedHeaders "X-API-Key" =
      some "test-api-key-12345" ∧
     headerLookup sampleMergedHeaders "X-SDK-Version" = some "0.1.0" ∧
     headerLookup sampleMergedHeaders "X-SDK-Language" = some "Python" ∧
     headerLookup sampleMergedHeaders "X-Organization-ID" =
      some "org_test" ∧
     headerLookup sampleMergedHeaders "Custom-Header" = some "value") := by
  have h := (dispatch_headers sampleAuth (some "org_test") 1704067200
    [("Custom-Header", "value")]).2.2 "test-api-key-12345"
    sampleBaseHeaders sampleMergedHeaders rfl rfl rfl
  exact ⟨(dispatch_headers { api_key := none, api_secret := none }
      (some "org_test") 0 []).1 rfl,
    (dispatch_headers sampleAuth (some "org_test") 1704067200
      [("Custom-Header", "value")]).2.1 rfl,
    h.1, h.2.1, h.2.2.1, h.2.2.2.1 "org_test" rfl,
    (h.2.2.2.2.2 "Custom-Header" rfl).trans rfl⟩

/-- Reduction of the retry loop on a network failure with budget left. -/
theorem retryAux_netFailure_step (delay : ℚ) (attempts : Nat → AttemptResult)
    (i f : Nat) (m : String)
    (hm : attempts i = AttemptResult.netFailure m) (hf : 0 < f) :
    retryAux delay attempts i (f + 1) =
      { outcome := (retryAux delay attempts (i + 1) f).outcome,
        attemptCount := (retryAux delay attempts (i + 1) f).attemptCount + 1,
        sleeps := delay * ((i + 1 : ℕ) : ℚ) ::
          (retryAux delay attempts (i + 1) f).sleeps } := by
  have hz : (f == 0) = false := by simpa using Nat.pos_iff_ne_zero.mp hf
  simp [retryAux, hm, hz]

/-- Reduction of the retry loop on a network failure with no budget left. -/
theorem retryAux_netFailure_last (delay : ℚ)
    (attempts : Nat → AttemptResult) (i : Nat) (m : String)
    (hm : attempts i = AttemptResult.netFailure m) :
    retryAux delay attempts i 1 =
      { outcome := Except.error (PyExc.networkError m),
        attemptCount := 1, sleeps := [] } := by
  simp [retryAux, hm]

/-- Reduction of the retry loop when the attempt yields a response. -/
theorem retryAux_response (delay : ℚ) (attempts : Nat → AttemptResult)
    (i f : Nat) (r : HTTPResponse)
    (hm : attempts i = AttemptResult.response r) :
    retryAux delay attempts i (f + 1) =
      { outcome := handleResponse r, attemptCount := 1, sleeps := [] } := by
  simp [retryAux, hm]

/-- When every attempt in the budget fails transiently, the retry loop
makes exactly `fuel` attempts, its sleeps are the linearly growing delays,
and it ends in `NetworkError`. -/
theorem retryAux_allfail (delay : ℚ) (attempts : Nat → AttemptResult) :
    ∀ fuel i, 0 < fuel →
    (∀ j, j < fuel → ∃ m, attempts (i + j) = AttemptResult.netFailure m) →
    (∃ m, (retryAux delay attempts i fuel).outcome =
      Except.error (PyExc.networkError m)) ∧
    (retryAux delay attempts i fuel).attemptCount = fuel ∧
    (retryAux delay attempts i fuel).sleeps =
      (List.range (fuel - 1)).map (fun j => delay * ((i + j + 1 : ℕ) : ℚ)) := by
  intro fuel
  induction fuel with
  | zero => intro i h0 _; exact absurd h0 (lt_irrefl 0)
  | succ f ih =>
    intro i _ hfail
    obtain ⟨m, hm⟩ := hfail 0 (Nat.succ_pos f)
    rw [Nat.add_zero] at hm
    rcases Nat.eq_zero_or_pos f with hf | hf
    · subst hf
      rw [retryAux_netFailure_last delay attempts i m hm]
      exact ⟨⟨m, rfl⟩, rfl, rfl⟩
    · rw [retryAux_netFailure_step delay attempts i f m hm hf]
      have hfail2 : ∀ j, j < f →
          ∃ m2, attempts (i + 1 + j) = AttemptResult.netFailure m2 := by
        intro j hj
        obtain ⟨m2, hm2⟩ := hfail (j + 1) (by omega)
        exact ⟨m2, by rw [show i + 1 + j = i + (j + 1) by omega]; exact hm2⟩
      obtain ⟨⟨m2, ho⟩, hc, hs⟩ := ih (i + 1) hf hfail2
      refine ⟨⟨m2, ho⟩, by simpa using hc, ?_⟩
      show delay * ((i + 1 : ℕ) : ℚ) ::
        (retryAux delay attempts (i + 1) f).sleeps = _
      rw [hs]
      obtain ⟨f2, rfl⟩ := Nat.exists_eq_succ_of_ne_zero (Nat.pos_iff_ne_zero.mp hf)
      rw [show f2 + 1 + 1 - 1 = f2 + 1 from rfl, List.range_succ_eq_map,
        List.map_cons, List.map_map]
      refine congrArg₂ _ rfl ?_
      refine List.map_congr_left ?_
      intro j _
      show delay * ((i + 1 + j + 1 : ℕ) : ℚ) = delay * ((i + (j + 1) + 1 : ℕ) : ℚ)
      rw [show i + 1 + j + 1 = i + (j + 1) + 1 by omega]

/-- When the first `k` attempts fail transiently and attempt `k` (within
the budget) yields a response, the loop returns that response's handling
after exactly `k + 1` attempts. -/
theorem retryAux_first_success (delay : ℚ)
    (attempts : Nat → AttemptResult) :
    ∀ fuel k i r, k < fuel →
    (∀ j, j < k → ∃ m, attempts (i + j) = AttemptResult.netFailure m) →
    attempts (i + k) = AttemptResult.response r →
    (retryAux delay attempts i fuel).outcome = handleResponse r ∧
    (retryAux delay attempts i fuel).attemptCount = k + 1 := by
  intro fuel
  induction fuel with
  | zero => intro k i r hk; exact absurd hk (Nat.not_lt_zero k)
  | succ f ih =>
    intro k i r hk hfail hresp
    rcases k with _ | k2
    · rw [Nat.add_zero] at hresp
      rw [retryAux_response delay attempts i f r hresp]
      exact ⟨rfl, rfl⟩
    · obtain ⟨m, hm⟩ := hfail 0 (Nat.succ_pos k2)
      rw [Nat.add_zero] at hm
      have hf : 0 < f := by omega
      rw [retryAux_netFailure_step delay attempts i f m hm hf]
      have hfail2 : ∀ j, j < k2 →
          ∃ m2, attempts (i + 1 + j) = AttemptResult.netFailure m2 := by
        intro j hj
        obtain ⟨m2, hm2⟩ := hfail (j + 1) (by omega)
        exact ⟨m2, by rw [show i + 1 + j = i + (j + 1) by omega]; exact hm2⟩
      have hresp2 : attempts (i + 1 + k2) = AttemptResult.response r := by
        rw [show i + 1 + k2 = i + (k2 + 1) by omega]; exact hresp
      obtain ⟨ho, hc⟩ := ih k2 (i + 1) r (by omega) hfail2 hresp2
      exact ⟨ho, by simp [hc]⟩

/-- C1: when every underlying HTTP attempt fails with a transient network
failure, the client makes exactly `max_retries` attempts (3 under the
default configuration), sleeping between consecutive attempts
(`max_retries - 1` sleeps), and raises `NetworkError`; when some attempt
before the limit succeeds with a parseable 2xx response, the request
returns that attempt's parsed JSON and makes no further attempts. -/
theorem bounded_retry_on_network_failure (cfg : ClientConfig)
    (attempts : Nat → AttemptResult) (hpos : 0 < cfg.max_retries) :
    ClientConfig.default.max_retries = 3 ∧
    ((∀ j, j < cfg.max_retries →
        ∃ m, attempts j = AttemptResult.netFailure m) →
      (∃ m, (runRequest cfg attempts).outcome =
        Except.error (PyExc.networkError m)) ∧
      (runRequest cfg attempts).attemptCount = cfg.max_retries ∧
      (runRequest cfg attempts).sleeps.length = cfg.max_retries - 1) ∧
    (∀ k r, k < cfg.max_retries →
      (∀ j, j < k → ∃ m, attempts j = AttemptResult.netFailure m) →
      attempts k = AttemptResult.response r →
      200 ≤ r.status_code → r.status_code < 300 → (r.text == "") = false →
      (runRequest cfg attempts).outcome = Except.ok r.jsonBody ∧
      (runRequest cfg attempts).attemptCount = k + 1) := by
  refine ⟨rfl, ?_, ?_⟩
  · intro hfail
    obtain ⟨he, hc, hs⟩ := retryAux_allfail cfg.retry_delay attempts
      cfg.max_retries 0 hpos (by simpa using hfail)
    exact ⟨he, hc, by simp [runRequest] at hs ⊢; rw [hs]; simp⟩
  · intro k r hk hfail hresp h200 h300 htext
    obtain ⟨ho, hc⟩ := retryAux_first_success cfg.retry_delay attempts
      cfg.max_retries k 0 r hk (by simpa using hfail) (by simpa using hresp)
    refine ⟨?_, hc⟩
    have ho2 : (runRequest cfg attempts).outcome = handleResponse r := ho
    rw [ho2]
    unfold handleResponse
    rw [if_pos ⟨h200, h300⟩, htext]
    simp

/-- An environment in which every underlying HTTP attempt raises a
connection error. -/
def persistentFailure : Nat → AttemptResult :=
  fun _ => AttemptResult.netFailure "Connection failed"

/-- A successful 200 response with a JSON body. -/
def respOk : HTTPResponse :=
  { status_code := 200, text := "j",
    jsonBody := JValue.obj [("success", JValue.bool true)], headers := [] }

/-- An environment in which the first two attempts raise connection errors
and the third succeeds. -/
def successOnThird : Nat → AttemptResult :=
  fun i => if i < 2 then AttemptResult.netFailure "Connection failed"
    else AttemptResult.response respOk

/-- Witness for C1: under the default configuration, a persistently
failing environment yields exactly 3 attempts, 2 sleeps and a
`NetworkError`; an environment succeeding on the third attempt yields the
parsed JSON after exactly 3 attempts. -/
theorem bounded_retry_on_network_failure_witness :
    (∃ m, (runRequest ClientConfig.default persistentFailure).outcome =
      Except.error (PyExc.networkError m)) ∧
    (runRequest ClientConfig.default persistentFailure).attemptCount = 3 ∧
    (runRequest ClientConfig.default persistentFailure).sleeps.length = 2 ∧
    (runRequest ClientConfig.default successOnThird).outcome =
      Except.ok (JValue.obj [("success", JValue.bool true)]) ∧
    (runRequest ClientConfig.default successOnThird).attemptCount = 3 := by
  have h1 := (bounded_retry_on_network_failure ClientConfig.default
    persistentFailure (by decide)).2.1
    (fun j hj => ⟨"Connection failed", rfl⟩)
  have h2 := (bounded_retry_on_network_failure ClientConfig.default
    successOnThird (by decide)).2.2 2 respOk (by decide)
    (fun j hj => ⟨"Connection failed", by simp [successOnThird, hj]⟩)
    (by simp [successOnThird]) (by decide) (by decide) (by decide)
  exact ⟨h1.1, h1.2.1, h1.2.2, h2.1, h2.2⟩

/-- The sleeps of any run of the retry loop are an initial segment of the
linearly growing delay schedule. -/
theorem retryAux_sleeps_shape (delay : ℚ) (attempts : Nat → AttemptResult) :
    ∀ fuel i, ∃ kk, (retryAux delay attempts i fuel).sleeps =
      (List.range kk).map (fun j => delay * ((i + j + 1 : ℕ) : ℚ)) := by
  intro fuel
  induction fuel with
  | zero => exact fun i => ⟨0, rfl⟩
  | succ f ih =>
    intro i
    rcases hi : attempts i with r | m
    · exact ⟨0, by rw [retryAux_response delay attempts i f r hi]; simp⟩
    · rcases Nat.eq_zero_or_pos f with hf | hf
      · subst hf
        exact ⟨0, by
          rw [retryAux_netFailure_last delay attempts i m hi]; simp⟩
      · obtain ⟨kk, hs⟩ := ih (i + 1)
        refine ⟨kk + 1, ?_⟩
        rw [retryAux_netFailure_step delay attempts i f m hi hf]
        show delay * ((i + 1 : ℕ) : ℚ) :: _ = _
        rw [hs, List.range_succ_eq_map, List.map_cons, List.map_map]
        refine congrArg₂ _ rfl ?_
        refine List.map_congr_left ?_
        intro j _
        show delay * ((i + 1 + j + 1 : ℕ) : ℚ) =
          delay * ((i + (j + 1) + 1 : ℕ) : ℚ)
        rw [show i + 1 + j + 1 = i + (j + 1) + 1 by omega]

/-- The linear delay schedule is strictly increasing for a positive
delay. -/
theorem chain_lt_delay_schedule (delay : ℚ) (hd : 0 < delay) (i kk : Nat) :
    List.Chain' (· < ·)
      ((List.range kk).map (fun j => delay * ((i + j + 1 : ℕ) : ℚ))) := by
  rw [List.chain'_map]
  rcases kk with _ | k2
  · simp
  · rw [List.chain'_range_succ]
    intro m2 hm
    have hlt : ((i + m2 + 1 : ℕ) : ℚ) < ((i + (m2 + 1) + 1 : ℕ) : ℚ) := by
      exact_mod_cast by omega
    exact mul_lt_mul_of_pos_left hlt hd

/-- C4: for a positive configured `retry_delay`, the sleep delays of any
request are strictly increasing from one retry to the next, following the
linear schedule `retry_delay * attempt_number`. -/
theorem retry_delay_strictly_increases (cfg : ClientConfig)
    (attempts : Nat → AttemptResult) (hd : 0 < cfg.retry_delay) :
    List.Chain' (· < ·) (runRequest cfg attempts).sleeps ∧
    ∃ kk, (runRequest cfg attempts).sleeps =
      (List.range kk).map (fun j => cfg.retry_delay * ((j + 1 : ℕ) : ℚ)) := by
  obtain ⟨kk, hs⟩ := retryAux_sleeps_shape cfg.retry_delay attempts
    cfg.max_retries 0
  rw [runRequest, hs]
  refine ⟨chain_lt_delay_schedule cfg.retry_delay hd 0 kk, ⟨kk, ?_⟩⟩
  refine List.map_congr_left ?_
  intro j _
  rw [show 0 + j + 1 = j + 1 by omega]

/-- Witness for C4: under the default configuration (retry delay 1.0) the
sleeps of a persistently failing request are strictly increasing and
follow the linear schedule. -/
theorem retry_delay_strictly_increases_witness :
    List.Chain' (· < ·)
      (runRequest ClientConfig.default persistentFailure).sleeps ∧
    ∃ kk, (runRequest ClientConfig.default persistentFailure).sleeps =
      (List.range kk).map
        (fun j => ClientConfig.default.retry_delay * ((j + 1 : ℕ) : ℚ)) :=
  retry_delay_strictly_increases ClientConfig.default persistentFailure
    (by norm_num [ClientConfig.default])

end AINative
